import Mathlib

/-!
Shallow embedding of the mimicIn-agent repository (Python) in Lean 4, with
proofs checking the natural-language specification against the code.

Files embedded:
  * `src/persona/agent.py` — LinkedIn URL validation, QR-code tool wrappers,
    the scraper subprocess wrapper, natural-language profile extraction,
    the high-level `build_profile` resolver, `google_search`, `parse_qr_b64`,
    and `render_prompt_from_json`.
  * `src/persona/qr_decoder.py` — `QRDecoder` payload classification and
    vCard parsing.
  * `src/persona/linkedin_scrape_chrome.py` — the Gemini analysis step.
  * `src/main.py` — the client→agent WebSocket message dispatch.

Modelling conventions:
  * Python dictionaries are association lists `PyDict` over `PyVal`
    (insertion order preserved, assignment replaces in place, new keys
    append at the end — as CPython dicts do).
  * External effects (OpenCV QR detection, the scraper subprocess, the
    Gemini API, the `googlesearch` package, environment variables) are
    supplied as explicit environment records; the Python `try/except`
    structure around them is reproduced by matching on the outcome.
  * Python strings are Lean `String`; case mapping and whitespace are
    modelled at the ASCII level (all string literals the code compares
    against are ASCII).
  * `base64.b64decode` is modelled by total functions returning `Option`,
    reproducing the quad-position decode loop of CPython's
    `binascii.a2b_base64` in its non-strict and strict (`validate=True`)
    modes.
-/

namespace MimicIn

/-! ## Python value model -/

/-- A Python value, as far as the embedded code needs: `None`, strings,
integers, booleans, lists and string-keyed dictionaries. -/
inductive PyVal where
  | none
  | str (s : String)
  | int (n : Int)
  | bool (b : Bool)
  | list (xs : List PyVal)
  | dict (d : List (String × PyVal))
deriving Repr

/-- A Python dictionary with string keys: an insertion-ordered association
list. -/
abbrev PyDict := List (String × PyVal)

/-- Model of `d.get(key)` — the value at `key`, or `none` (Python `None` is
represented separately as `PyVal.none`; absence is `Option.none`). -/
def dget : PyDict → String → Option PyVal
  | [], _ => Option.none
  | (k, v) :: rest, key => if k == key then some v else dget rest key

/-- Model of `d[key] = v` — replace the first binding of `key` in place, or append a
new binding at the end (CPython dict assignment preserves insertion order). -/
def dset : PyDict → String → PyVal → PyDict
  | [], key, v => [(key, v)]
  | (k, w) :: rest, key, v =>
      if k == key then (k, v) :: rest else (k, w) :: dset rest key v

/-- Model of `key in d`. -/
def hasKey (d : PyDict) (key : String) : Bool := (dget d key).isSome

/-- Model of `list(d.keys())`. -/
def dictKeys (d : PyDict) : List String := d.map Prod.fst

/-- Model of `d.setdefault(key, v)` — insert `v` at `key` only when `key` is absent. -/
def dsetdefault (d : PyDict) (key : String) (v : PyVal) : PyDict :=
  if hasKey d key then d else d ++ [(key, v)]

/-- Python truthiness of a value. -/
def pyTruthy : PyVal → Bool
  | .none => false
  | .str s => !(s == "")
  | .int n => !(n == 0)
  | .bool b => b
  | .list xs => !xs.isEmpty
  | .dict d => !d.isEmpty

/-- Truthiness of an optional string (Python `None` or `str`). -/
def optStrTruthy : Option String → Bool
  | Option.none => false
  | some s => !(s == "")

/-- Python `a or b` on optional strings: keep `a` when truthy, else `b`. -/
def pyOrStr (a b : Option String) : Option String :=
  if optStrTruthy a then a else b

/-- Model of `d.get(key) == lit` where `lit` is a Python string literal: equality
holds only when the value is a string equal to `lit`. -/
def dgetEqStr (d : PyDict) (key : String) (lit : String) : Bool :=
  match dget d key with
  | some (.str s) => s == lit
  | _ => false

/-! ## String helpers (ASCII-level models of Python `str` methods) -/

/-- The ASCII whitespace characters stripped by Python `str.strip()`. -/
def isPySpace (c : Char) : Bool :=
  c == ' ' || c == '\t' || c == '\n' || c == '\r' || c == '\x0b' || c == '\x0c'

/-- Model of `str.lstrip()` on a character list. -/
def pyLstripL (l : List Char) : List Char := l.dropWhile isPySpace

/-- Model of `str.strip()` on a character list. -/
def pyStripL (l : List Char) : List Char :=
  ((l.dropWhile isPySpace).reverse.dropWhile isPySpace).reverse

/-- Model of `str.strip()`. -/
def pyStrip (s : String) : String := (pyStripL s.toList).asString

/-- Model of `str.lstrip()`. -/
def pyLstrip (s : String) : String := (pyLstripL s.toList).asString

/-- Model of `str.lower()` (ASCII). -/
def pyLower (s : String) : String := (s.toList.map Char.toLower).asString

/-- Model of `str.upper()` (ASCII). -/
def pyUpper (s : String) : String := (s.toList.map Char.toUpper).asString

/-- Model of `s.startswith(pre)`. -/
def strStartsWith (s pre : String) : Bool := pre.toList.isPrefixOf s.toList

/-- Does `needle` occur as a contiguous sublist of `hay`? -/
def subOccurs (hay needle : List Char) : Bool :=
  match hay with
  | [] => needle.isEmpty
  | _ :: rest => needle.isPrefixOf hay || subOccurs rest needle

/-- Substring containment, `needle in hay`. -/
def strContains (hay needle : String) : Bool :=
  subOccurs hay.toList needle.toList

/-- Model of `str.split(sep)` for a one-character separator, on a character list:
`"a;;b".split(";") == ["a", "", "b"]` and `"".split(";") == [""]`. -/
def splitOnChar (sep : Char) : List Char → List (List Char)
  | [] => [[]]
  | c :: rest =>
      if c == sep then [] :: splitOnChar sep rest
      else
        match splitOnChar sep rest with
        | [] => [[c]]
        | h :: t => (c :: h) :: t

/-- Model of `str.split(sep)` for a one-character separator. -/
def splitStr (sep : Char) (s : String) : List String :=
  (splitOnChar sep s.toList).map List.asString

/-- Model of `sep.join(parts)`. -/
def joinWith (sep : String) : List String → String
  | [] => ""
  | [x] => x
  | x :: y :: rest => x ++ sep ++ joinWith sep (y :: rest)

/-- Fused form of `text.replace("\r\n", "\n").replace("\r", "\n")`: a
`\r\n` pair and a lone `\r` both become `\n` (the two sequential
left-to-right replacements have exactly this effect). -/
def normNewlinesL : List Char → List Char
  | [] => []
  | '\r' :: '\n' :: rest => '\n' :: normNewlinesL rest
  | '\r' :: rest => '\n' :: normNewlinesL rest
  | c :: rest => c :: normNewlinesL rest

/-! ## base64 (model of `base64.b64decode`)

CPython's `binascii.a2b_base64` walks the characters with a quad position
(data characters seen in the current group of four), emitting one byte on
the second, third and fourth data character of a quad.  A `=` increments a
pad counter (reset to zero by every data character) and terminates the
decode successfully once the current quad has two or three data characters
and data plus pads reach four; otherwise it is skipped.  At the end of
input the quad must be complete.  In non-strict mode (`b64decode(s)`)
characters outside the alphabet are skipped; in strict mode
(`b64decode(s, validate=True)`, CPython ≥ 3.11) they raise, as do a
leading `=`, a data character after any `=`, and further input after a
terminating pad sequence.  Failure is `Option.none` (`binascii.Error`). -/

/-- The value of a standard-alphabet base64 character. -/
def b64Val (c : Char) : Option Nat :=
  if 'A' ≤ c ∧ c ≤ 'Z' then some (c.toNat - 'A'.toNat)
  else if 'a' ≤ c ∧ c ≤ 'z' then some (c.toNat - 'a'.toNat + 26)
  else if '0' ≤ c ∧ c ≤ '9' then some (c.toNat - '0'.toNat + 52)
  else if c = '+' then some 62
  else if c = '/' then some 63
  else Option.none

/-- Is `c` in the standard base64 alphabet (excluding padding)? -/
def isB64Char (c : Char) : Bool := (b64Val c).isSome

/-- Decode a run of data characters (no padding) into bytes: full quads give
three bytes; a final pair or triple (which the caller has checked is
completed by padding) gives one or two bytes. -/
def b64Bytes : List Char → List Nat
  | a :: b :: c :: d :: rest =>
      let va := (b64Val a).getD 0
      let vb := (b64Val b).getD 0
      let vc := (b64Val c).getD 0
      let vd := (b64Val d).getD 0
      let n := va * 2 ^ 18 + vb * 2 ^ 12 + vc * 2 ^ 6 + vd
      n / 2 ^ 16 :: n / 2 ^ 8 % 2 ^ 8 :: n % 2 ^ 8 :: b64Bytes rest
  | [a, b, c] =>
      let n := (b64Val a).getD 0 * 2 ^ 12 + (b64Val b).getD 0 * 2 ^ 6 + (b64Val c).getD 0
      [n / 2 ^ 10, n / 2 ^ 2 % 2 ^ 8]
  | [a, b] =>
      let n := (b64Val a).getD 0 * 2 ^ 6 + (b64Val b).getD 0
      [n / 2 ^ 4]
  | _ => []

/-- The decode loop of `binascii.a2b_base64` without `strict_mode`: `acc`
holds the data characters consumed so far (its length mod 4 is the quad
position), `pads` the `=` count since the last data character.  A `=`
terminates successfully when the quad has two or three data characters and
data plus pads reach four; invalid characters are skipped; at the end of
input the quad must be complete. -/
def b64LenientLoop (acc : List Char) (pads : Nat) : List Char → Option (List Nat)
  | [] => if acc.length % 4 == 0 then some (b64Bytes acc) else Option.none
  | c :: rest =>
      if c == '=' then
        if acc.length % 4 ≥ 2 ∧ acc.length % 4 + (pads + 1) ≥ 4 then
          some (b64Bytes acc)
        else b64LenientLoop acc (pads + 1) rest
      else if isB64Char c then b64LenientLoop (acc ++ [c]) 0 rest
      else b64LenientLoop acc pads rest

/-- Model of `base64.b64decode(s)` (no `validate`). -/
def b64decodeLenient (s : String) : Option (List Nat) :=
  b64LenientLoop [] 0 s.toList

/-- The decode loop of `binascii.a2b_base64` with `strict_mode`: as the
lenient loop, except that a character outside the alphabet raises, a data
character after any `=` raises (discontinuous padding), and input left
after a terminating pad sequence raises (excess data). -/
def b64StrictLoop (acc : List Char) (pads : Nat) (padStarted : Bool) :
    List Char → Option (List Nat)
  | [] => if acc.length % 4 == 0 then some (b64Bytes acc) else Option.none
  | c :: rest =>
      if c == '=' then
        if acc.length % 4 ≥ 2 ∧ acc.length % 4 + (pads + 1) ≥ 4 then
          if rest.isEmpty then some (b64Bytes acc) else Option.none
        else b64StrictLoop acc (pads + 1) true rest
      else if isB64Char c then
        if padStarted then Option.none
        else b64StrictLoop (acc ++ [c]) 0 false rest
      else Option.none

/-- Model of `base64.b64decode(s, validate=True)` (CPython ≥ 3.11 routes
this to `a2b_base64` with `strict_mode`): additionally, a string whose
first character is `=` raises (leading padding). -/
def b64decodeStrict (s : String) : Option (List Nat) :=
  match s.toList with
  | '=' :: _ => Option.none
  | cs => b64StrictLoop [] 0 false cs

/-! ## LinkedIn profile-URL validation (`src/persona/agent.py`)

The pattern `_LINKEDIN_PROFILE_RE` is

    ^https?://(?:[a-z]{2,3}\.)?linkedin\.com/
      (?:(?:mwlite/)?in/[^/?#]+|profile/view\?id=\d+)(?:[/?#].*)?$

compiled with `re.IGNORECASE`.  We match the ASCII-lowercased, stripped
input against the lowercase pattern; each regex alternation becomes a
boolean disjunction (full-backtracking match of a union is the union of
the matches).  Python newline semantics are kept: `.` does not match a
newline and `$` matches at the end or before one final newline (`[^/?#]`
does match a newline).  The greedy `[^/?#]+` / `\d+` runs are
maximal-munch: a shorter run leaves a run character next, which can
neither start `[/?#].*` nor satisfy `$` — for the slug branch a remainder
of exactly `"\n"` is itself a run character, so the maximal run absorbs it
and the empty remainder matches `$` all the same. -/

/-- Drop a literal from the head of the input, or fail. -/
def dropLit : List Char → List Char → Option (List Char)
  | [], s => some s
  | _ :: _, [] => Option.none
  | c :: cs, x :: xs => if x == c then dropLit cs xs else Option.none

/-- Model of `[a-z]` on the lowercased input. -/
def isAZ (c : Char) : Bool := 'a' ≤ c ∧ c ≤ 'z'

/-- Model of the Python `$` anchor (no `re.MULTILINE`): it matches at the
end of the string, or immediately before a newline that ends the string. -/
def dollarOnly : List Char → Bool
  | [] => true
  | ['\n'] => true
  | _ => false

/-- Model of `.*$` where `.` does not match a newline: the remainder holds
no newline at all, or exactly one newline as its final character. -/
def dotStarDollar (r : List Char) : Bool :=
  dollarOnly (r.dropWhile (fun c => c != '\n'))

/-- Can the remainder complete `(?:[/?#].*)?$`?  Taking the group needs a
`/`, `?` or `#` and then `.*$` (no interior newline); skipping it leaves
`$` alone. -/
def tailOk : List Char → Bool
  | [] => true
  | c :: rest =>
      if c == '/' || c == '?' || c == '#' then dotStarDollar rest
      else dollarOnly (c :: rest)

/-- A character allowed in the profile slug, `[^/?#]`. -/
def isSlugChar (c : Char) : Bool := ¬ (c == '/' || c == '?' || c == '#')

/-- Model of `[^/?#]+(?:[/?#].*)?$`. -/
def slugThenTail (s : List Char) : Bool :=
  ¬ (s.takeWhile isSlugChar).isEmpty && tailOk (s.dropWhile isSlugChar)

/-- Model of `\d+(?:[/?#].*)?$`. -/
def digitsThenTail (s : List Char) : Bool :=
  ¬ (s.takeWhile Char.isDigit).isEmpty && tailOk (s.dropWhile Char.isDigit)

/-- The path alternation after `linkedin.com/`:
`(?:mwlite/)?in/[^/?#]+` or `profile/view\?id=\d+`, then the tail. -/
def linkedinPath (s : List Char) : Bool :=
  (match dropLit "in/".toList s with
   | some r => slugThenTail r
   | Option.none => false) ||
  (match dropLit "mwlite/in/".toList s with
   | some r => slugThenTail r
   | Option.none => false) ||
  (match dropLit "profile/view?id=".toList s with
   | some r => digitsThenTail r
   | Option.none => false)

/-- Model of `linkedin\.com/` then the path alternation. -/
def linkedinHost (s : List Char) : Bool :=
  match dropLit "linkedin.com/".toList s with
  | some r => linkedinPath r
  | Option.none => false

/-- Model of `(?:[a-z]{2,3}\.)?linkedin\.com/...`: no subdomain, a two-letter or a
three-letter subdomain. -/
def linkedinAfterScheme (s : List Char) : Bool :=
  linkedinHost s ||
  (match s with
   | a :: b :: c :: rest => isAZ a && isAZ b && c == '.' && linkedinHost rest
   | _ => false) ||
  (match s with
   | a :: b :: c :: d :: rest =>
       isAZ a && isAZ b && isAZ c && d == '.' && linkedinHost rest
   | _ => false)

/-- The full anchored pattern on a lowercased character list. -/
def linkedinMatch (s : List Char) : Bool :=
  match dropLit "http".toList s with
  | Option.none => false
  | some r =>
      (match dropLit "://".toList r with
       | some r2 => linkedinAfterScheme r2
       | Option.none => false) ||
      (match dropLit "s://".toList r with
       | some r2 => linkedinAfterScheme r2
       | Option.none => false)

/-- Model of `_is_linkedin_profile_url(url)`: strip, then match the pattern
case-insensitively. -/
def is_linkedin_profile_url (url : String) : Bool :=
  linkedinMatch ((pyStripL url.toList).map Char.toLower)

/-! ## `src/persona/qr_decoder.py` -/

/-- Model of `re.match(r"^https?://", s, re.IGNORECASE)` as a boolean, on the
ASCII-lowercased input. -/
def urlSchemeMatch (l : List Char) : Bool :=
  match dropLit "http".toList (l.map Char.toLower) with
  | Option.none => false
  | some r =>
      (dropLit "://".toList r).isSome || (dropLit "s://".toList r).isSome

/-- The line list of `_parse_vcard`:
`text.replace("\r\n", "\n").replace("\r", "\n").split("\n")`. -/
def vcardLines (s : String) : List String :=
  (splitOnChar '\n' (normNewlinesL s.toList)).map List.asString

/-- Does a line start with a space or tab (`line.startswith((" ", "\t"))`)? -/
def isFoldedLine (line : String) : Bool :=
  strStartsWith line " " || strStartsWith line "\t"

/-- One step of the unfolding loop: the accumulator holds the unfolded lines
in reverse; a folded continuation line is appended (left-stripped) to the
most recent line when one exists. -/
def unfoldStep (acc : List String) (line : String) : List String :=
  match acc with
  | [] => [line]
  | prev :: rest =>
      if isFoldedLine line then (prev ++ pyLstrip line) :: rest
      else line :: prev :: rest

/-- The unfolding loop of `_parse_vcard`. -/
def unfoldLines (lines : List String) : List String :=
  (lines.foldl unfoldStep []).reverse

/-- Model of `d.setdefault(key, []).append(v)`: append to the list at `key`,
creating a one-element list when the key is absent.  (Inside `_parse_vcard`
the key, when present, always holds a list.) -/
def dlistAppend (d : PyDict) (key : String) (v : PyVal) : PyDict :=
  match dget d key with
  | some (.list xs) => dset d key (.list (xs ++ [v]))
  | some _ => d
  | Option.none => d ++ [(key, .list [v])]

/-- The key of an unfolded line: the part before the first `:`, uppercased,
truncated at the first `;`. -/
def vcardKey (line : String) : String :=
  (((line.toList.takeWhile (fun c => c != ':')).map Char.toUpper).takeWhile
    (fun c => c != ';')).asString

/-- The value of an unfolded line: the part after the first `:`, stripped. -/
def vcardVal (line : String) : String :=
  pyStrip ((line.toList.dropWhile (fun c => c != ':')).tail.asString)

/-- The field dispatch of `_parse_vcard` for one unfolded line that
contains a `:`. -/
def applyVcardField (fields : PyDict) (line : String) : PyDict :=
    let key := vcardKey line
    let val := vcardVal line
    if key == "FN" then dset fields "name" (.str val)
    else if key == "N" then
      let parts := splitStr ';' val
      let given := parts.getD 1 ""
      let family := parts.getD 0 ""
      dsetdefault fields "name"
        (.str (pyStrip (joinWith " "
          (([given, family]).filter (fun p => p != "")))))
    else if key == "TITLE" then dset fields "title" (.str val)
    else if key == "ORG" then dset fields "company" (.str val)
    else if key == "ADR" then
      let parts := splitStr ';' val
      let city := parts.getD 3 ""
      let region := parts.getD 4 ""
      let country := parts.getD 6 ""
      let loc := joinWith ", "
        (([city, if region != "" then region else country]).filter
          (fun x => x != ""))
      if loc != "" then dset fields "location" (.str loc) else fields
    else if key == "EMAIL" then dlistAppend fields "emails" (.str val)
    else if key == "TEL" then dlistAppend fields "phones" (.str val)
    else if key == "URL" then dlistAppend fields "urls" (.str val)
    else fields

/-- The body of the field loop of `_parse_vcard` for one unfolded line:
lines without a `:` are skipped (`continue`). -/
def processVcardLine (fields : PyDict) (line : String) : PyDict :=
  if ¬ strContains line ":" then fields else applyVcardField fields line

/-- Model of `QRDecoder._parse_vcard`. -/
def parse_vcard (vcard_text : String) : PyDict :=
  (unfoldLines (vcardLines vcard_text)).foldl processVcardLine []

/-- Model of `QRDecoder._classify_payload`: a stripped payload is a `"url"`, a
`"vcard"`, or `"text"`. -/
def classify_payload (payload : String) : String × PyDict :=
  let s := pyStrip payload
  if urlSchemeMatch s.toList then ("url", [("url", .str s)])
  else
    let U := pyUpper s
    if strStartsWith U "BEGIN:VCARD" && strContains U "END:VCARD" then
      ("vcard", [("vcard", .dict (parse_vcard s))])
    else ("text", [("text", .str s)])

/-- The environment of one `QRDecoder.decode` call: whether `_load_image`
produced an image, and the candidate payload lists returned by
`_decode_multi` (after its `[t for t in texts if t]` filter, `[]` on
detection failure or exception) and `_decode_single`. -/
structure QRDecoderEnv where
  loaded : Bool
  multiTexts : List String
  singleTexts : List String

/-- The candidate loop of `QRDecoder.decode`: return the data of the first
payload whose kind is in the preference tuple. -/
def firstPreferred (prefer : List String) : List String → PyDict
  | [] => []
  | p :: rest =>
      let kd := classify_payload p
      if prefer.contains kd.1 then kd.2 else firstPreferred prefer rest

/-- Model of `self._decode_multi(img) or self._decode_single(img)`: the multi-decode
result when it is a non-empty (truthy) list, else the single-decode one. -/
def qrCandidates (env : QRDecoderEnv) : List String :=
  if ¬ env.multiTexts.isEmpty then env.multiTexts else env.singleTexts

/-- Model of `QRDecoder.decode`: `{}` when the image does not load, otherwise scan
`_decode_multi(img) or _decode_single(img)` for a preferred payload. -/
def qrdecoder_decode (env : QRDecoderEnv) (prefer : List String) : PyDict :=
  if ¬ env.loaded then []
  else firstPreferred prefer (qrCandidates env)

/-! ## `src/persona/agent.py` — QR tool -/

/-- The outcome of `_decode_qr_cv2(image_bytes)` inside the `try` of
`qr_to_vcard_or_url`: PIL raised `UnidentifiedImageError`, some other
exception was raised, or the call returned (`Option.none` = no QR found,
otherwise the decoded, stripped payload). -/
inductive QrDecodeOutcome where
  | unidentifiedImage
  | otherExc
  | decoded (res : Option String)

/-- The scheme normalization in `qr_to_vcard_or_url`: strip, then prepend
`https://` to payloads starting (case-insensitively) with `linkedin.com/`
or `www.linkedin.com/`. -/
def qrNormalize (decodedStr : String) : String :=
  let text := pyStrip decodedStr
  let lower := pyLower text
  if strStartsWith lower "linkedin.com/" || strStartsWith lower "www.linkedin.com/"
  then "https://" ++ pyLstrip text
  else text

/-- Model of `qr_to_vcard_or_url` as a function of the decode outcome. -/
def qr_to_vcard_or_url (outcome : QrDecodeOutcome) : PyDict :=
  match outcome with
  | .unidentifiedImage =>
      [("status", .str "error"),
       ("message", .str "Invalid image data: not a recognizable image.")]
  | .otherExc =>
      [("status", .str "error"),
       ("message", .str "Unable to decode QR from the provided image.")]
  | .decoded Option.none =>
      [("status", .str "error"), ("message", .str "No QR code found in image.")]
  | .decoded (some d) =>
      if d == "" then
        [("status", .str "error"), ("message", .str "No QR code found in image.")]
      else
        let text := qrNormalize d
        if ¬ is_linkedin_profile_url text then
          [("status", .str "error"),
           ("message", .str "We only accept LinkedIn profile URLs at the moment.")]
        else [("status", .str "success"), ("linkedin_url", .str text)]

/-! ## `src/persona/agent.py` — prompt rendering -/

/-- Python `str()` of a value, as interpolated by an f-string.  Containers
are abbreviated (no embedded code interpolates a container; profile fields
interpolated by `render_prompt_from_json` are strings or `None`). -/
def pyStrOf : PyVal → String
  | .none => "None"
  | .str s => s
  | .int n => toString n
  | .bool b => if b then "True" else "False"
  | .list _ => "[...]"
  | .dict _ => "\x7b...\x7d"

/-- Model of `profile.get(key) or default`. -/
def dgetOr (d : PyDict) (key : String) (dflt : PyVal) : PyVal :=
  match dget d key with
  | some w => if pyTruthy w then w else dflt
  | Option.none => dflt

/-- The persona-instruction f-string of `render_prompt_from_json`,
`.strip()`ped. -/
def personaInstructions (name position company location : PyVal)
    (extra_context : Option String) : String :=
  pyStrip
    ("\n    You are " ++ pyStrOf name ++ ", " ++ pyStrOf position ++ " at " ++
     pyStrOf company ++ ", located in " ++ pyStrOf location ++ ".\n" ++
     "    You are interviewing a candidate at a college job fair who has expressed interest in joining the firm.\n" ++
     "    Please ask questions " ++ pyStrOf name ++ " would be likely to ask given their background.\n\n" ++
     "    Rules:\n" ++
     "    - Focus on early-career talent (this is a college fair).\n" ++
     "    -Generate replies based off of your position. For example, if you are software engineering, offer insights about a framework; If you are a product manager, for example, give insights about agile principles\n" ++
     "    - Keep replies short and professional (target ~3 minutes).\n" ++
     "    - No markdown/emoji, use plain English.\n" ++
     "    - If you\x27re unsure, ground yourself first (google_search tool).\n" ++
     "    - End with \"\\END_CONVERSATION\\\" and feedback on the candidate\x27s performance.\n" ++
     "    " ++ (match extra_context with
                | some e => if e != "" then e else ""
                | Option.none => "") ++ "\n    ")

/-- Model of `render_prompt_from_json(profile, extra_context)`. -/
def render_prompt_from_json (profile : PyDict) (extra_context : Option String) :
    PyDict :=
  let name := dgetOr profile "name" (.str "Recruiter")
  let position := dgetOr profile "position" (.str "Recruiter")
  let company := dgetOr profile "company" (.str "Company")
  let location := dgetOr profile "location" (.str "United States")
  [("status", .str "success"),
   ("persona_instructions",
    .str (personaInstructions name position company location extra_context)),
   ("profile",
    .dict [("name", name), ("position", position), ("company", company),
           ("location", location), ("url", (dget profile "url").getD .none)])]

/-! ## `src/persona/agent.py` — scraper subprocess wrapper -/

/-- The outcome of the `subprocess.run` + output-file read in
`linkedin_profile_extractor`: the scraper exited nonzero
(`CalledProcessError`, carrying `e.stderr`, `e.stdout` and `str(e)`), some
other exception was raised (file/JSON errors), or the output file parsed
to the dictionary `data`. -/
inductive SubprocOutcome where
  | calledProcessError (stderr stdout excStr : String)
  | otherExc (msg : String)
  | ok (data : PyDict)

/-- The environment of one `linkedin_profile_extractor` call: whether the
scraper script exists (repo-local or the `/mnt/data` fallback), the
`EMAIL`/`PASSWORD` environment variables, and the subprocess outcome.
`headless`/`chromedriver` only shape the subprocess command line and are
absorbed into the outcome. -/
structure ExtractorEnv where
  scriptFound : Bool
  envEmail : Option String
  envPassword : Option String
  subproc : SubprocOutcome

/-- The scheme normalization at the top of `linkedin_profile_extractor`:
strip, then prepend `https://` when the input starts (case-insensitively)
with `linkedin.com/` or `www.linkedin.com/`. -/
def extractorNormalize (linkedin_url : String) : String :=
  let stripped := pyStrip linkedin_url
  let lower := pyLower stripped
  if strStartsWith lower "linkedin.com/" || strStartsWith lower "www.linkedin.com/"
  then "https://" ++ stripped
  else stripped

/-- Model of `linkedin_profile_extractor(linkedin_url, email, password, ...)`. -/
def linkedin_profile_extractor (env : ExtractorEnv) (linkedin_url : String)
    (email password : Option String) : PyDict :=
  let normalized := extractorNormalize linkedin_url
  if ¬ is_linkedin_profile_url normalized then
    [("error", .str "Invalid LinkedIn profile URL.")]
  else if ¬ env.scriptFound then
    [("error", .str "linkedin_scrape_chrome.py not found")]
  else
    let email := pyOrStr email env.envEmail
    let password := pyOrStr password env.envPassword
    if ¬ optStrTruthy email || ¬ optStrTruthy password then
      [("error", .str "Missing EMAIL/PASSWORD for LinkedIn")]
    else
      match env.subproc with
      | .calledProcessError stderr stdout excStr =>
          let m := if stderr != "" then stderr
                   else if stdout != "" then stdout else excStr
          [("error", .str ("scraper failed: " ++ m))]
      | .otherExc msg => [("error", .str msg)]
      | .ok data => dset data "url" (.str normalized)

/-! ## `src/persona/agent.py` — fallbacks and NL parsing -/

/-- Model of `generic_profile()`. -/
def generic_profile : PyDict :=
  [("name", .none), ("position", .str "Recruiter"),
   ("company", .str "Mid-sized software company"),
   ("location", .str "United States (metro area)"), ("url", .none)]

/-- The outcome of the Gemini call + `json.loads` inside the `try` of
`nl_to_json_extractor`: any exception (client error, bad JSON, non-dict
JSON) lands in the `except` fallback; otherwise `data` is the parsed
dictionary. -/
inductive NlOutcome where
  | excFallback
  | parsed (data : PyDict)

/-- The environment of `nl_to_json_extractor`: the Gemini outcome as a
function of the input text, and the two regex fallback extractions
(`re.search(r"\bat\s+([A-Z][\w&.\- ]{1,60})", text)` group 1 and
`re.search(r"\b(in|based in)\s+([A-Z][\w .,-]{1,60})", text, re.I)`
group 2), also as functions of the text. -/
structure NlEnv where
  nlOutcome : String → NlOutcome
  fallbackComp : String → Option String
  fallbackLoc : String → Option String

/-- The normalization loop of `nl_to_json_extractor`: strings are stripped
and empty strings become `None`; other values pass through; a missing key
is `None` (from `data.get`). -/
def normStrVal (v : Option PyVal) : PyVal :=
  match v with
  | some (.str s) => let t := pyStrip s; if t == "" then .none else .str t
  | some w => w
  | Option.none => .none

/-- Is a value Python `None`? -/
def isNoneVal : PyVal → Bool
  | .none => true
  | _ => false

/-- The regex fallback branch of `nl_to_json_extractor`. -/
def nlFallback (env : NlEnv) (text : String) : PyDict :=
  [("name", .none), ("position", .none),
   ("company", match env.fallbackComp text with
               | some c => .str (pyStrip c)
               | Option.none => .none),
   ("location", match env.fallbackLoc text with
                | some l => .str (pyStrip l)
                | Option.none => .none),
   ("url", .none)]

/-- Model of `nl_to_json_extractor(text)`. -/
def nl_to_json_extractor (env : NlEnv) (text : String) : PyDict :=
  if text == "" || pyStrip text == "" then generic_profile
  else
    match env.nlOutcome text with
    | .excFallback => nlFallback env text
    | .parsed data =>
        let out : PyDict :=
          [("name", normStrVal (dget data "name")),
           ("position", normStrVal (dget data "position")),
           ("company", normStrVal (dget data "company")),
           ("location", normStrVal (dget data "location")),
           ("url", normStrVal (dget data "url"))]
        if out.all (fun kv => isNoneVal kv.2) then nlFallback env text else out

/-! ## `src/persona/agent.py` — `build_profile` and tool wrappers -/

/-- The environment of the whole tool layer: the QR decode oracle (what
OpenCV does with given image bytes), the scraper wrapper environment and
the NL-extraction environment. -/
structure AgentEnv where
  qrDecode : List Nat → QrDecodeOutcome
  extractor : ExtractorEnv
  nl : NlEnv

/-- The `input_data` dictionary of `build_profile`, restricted to the keys
the function reads.  `mime_type` is forwarded to `qr_to_vcard_or_url`,
which ignores it. -/
structure BuildInput where
  image_bytes : Option (List Nat)
  mime_type : Option String
  linkedin_url : Option String
  preferences : Option String
  email : Option String
  password : Option String

/-- Steps 2–4 of `build_profile`: LinkedIn URL, then preferences, then the
generic fallback (each key is consulted with Python truthiness). -/
def buildFromUrlOrPrefs (env : AgentEnv) (inp : BuildInput) : PyDict :=
  match inp.linkedin_url with
  | some url =>
      if url != "" then
        linkedin_profile_extractor env.extractor url inp.email inp.password
      else match inp.preferences with
           | some p => if p != "" then nl_to_json_extractor env.nl p
                       else generic_profile
           | Option.none => generic_profile
  | Option.none =>
      match inp.preferences with
      | some p => if p != "" then nl_to_json_extractor env.nl p
                  else generic_profile
      | Option.none => generic_profile

/-- Model of `build_profile(input_data)`: QR image first (hard failure when the QR
step does not succeed), then URL, preferences, generic fallback. -/
def build_profile (env : AgentEnv) (inp : BuildInput) : PyDict :=
  match inp.image_bytes with
  | some bytes =>
      if bytes.isEmpty then buildFromUrlOrPrefs env inp
      else
        let qr := qr_to_vcard_or_url (env.qrDecode bytes)
        if dgetEqStr qr "status" "success" then
          buildFromUrlOrPrefs env
            { inp with linkedin_url :=
                match dget qr "linkedin_url" with
                | some (.str u) => some u
                | _ => Option.none }
        else
          [("error", (dget qr "message").getD (.str "Invalid QR code"))]
  | Option.none => buildFromUrlOrPrefs env inp

/-- The outcome of the `googlesearch` usage in `google_search`: the import
failed, the search raised, or it yielded a list of result URLs. -/
inductive SearchOutcome where
  | importError
  | exc (msg : String)
  | ok (urls : List String)

/-- One entry of the results list built by `google_search`. -/
def searchResultEntry (query : String) (i : Nat) (url : String) : PyVal :=
  .dict [("title", .str ("Result " ++ toString (i + 1))),
         ("url", .str url),
         ("snippet", .str ("Search result for: " ++ query))]

/-- Model of `google_search(query, num_results)`. -/
def google_search (outcome : SearchOutcome) (query : String)
    (num_results : Int) : PyDict :=
  match outcome with
  | .importError =>
      [("status", .str "error"),
       ("message", .str "Google search not available. Install with: pip install googlesearch-python"),
       ("fallback_advice",
        .str ("For query \x27" ++ query ++
              "\x27, suggest checking the company\x27s official website, LinkedIn, or recent news articles."))]
  | .exc msg =>
      [("status", .str "error"),
       ("message", .str ("Search failed: " ++ msg)),
       ("query", .str query)]
  | .ok urls =>
      let results :=
        ((urls.take num_results.toNat).enum).map
          (fun p => searchResultEntry query p.1 p.2)
      [("status", .str "success"), ("query", .str query),
       ("results", .list results), ("count", .int results.length)]

/-- Model of `parse_qr_b64(image_b64, mime_type)`: strict base64 decode, then
`qr_to_vcard_or_url`.  (The embedded failure message abbreviates the
interpolated `str(e)` of the CPython `binascii` exception.) -/
def parse_qr_b64 (env : AgentEnv) (image_b64 : String) : PyDict :=
  match b64decodeStrict image_b64 with
  | Option.none =>
      [("status", .str "error"), ("message", .str "Invalid base64: invalid data")]
  | some bytes => qr_to_vcard_or_url (env.qrDecode bytes)

/-! ## `src/persona/linkedin_scrape_chrome.py` — Gemini analysis step -/

/-- The outcome of the Gemini call and JSON extraction in
`analyze_with_gemini`: the extracted JSON failed to parse
(`json.JSONDecodeError`, with the raw response text), some other exception
was raised, or it parsed to the dictionary `data`. -/
inductive GeminiAnalysisOutcome where
  | jsonDecodeError (rawResponse : String)
  | otherExc (msg : String)
  | parsed (data : PyDict)

/-- Model of `analyze_with_gemini(model, screenshots, profile_url)` as a function of
the outcome: the parsed profile with `url` set, or an error dictionary. -/
def analyze_with_gemini (outcome : GeminiAnalysisOutcome)
    (profile_url : String) : PyDict :=
  match outcome with
  | .jsonDecodeError raw =>
      [("error", .str "Failed to parse Gemini response"),
       ("raw_response", .str raw), ("url", .str profile_url)]
  | .otherExc msg => [("error", .str msg), ("url", .str profile_url)]
  | .parsed data => dset data "url" (.str profile_url)

/-! ## `src/main.py` — client→agent WebSocket dispatch -/

/-- The effect of one loop iteration of `client_to_agent_messaging` on an
envelope with the given `mime_type` and `data`: forward text, forward a
decoded audio blob, or raise.  A `binascii.Error` from a malformed
`audio/pcm` payload is a `ValueError` subclass; its message is abbreviated
here. -/
inductive ClientAction where
  | sendText (text : String)
  | sendBlob (bytes : List Nat) (mime : String)
  | valueError (msg : String)

/-- The dispatch on `message["mime_type"]` in `client_to_agent_messaging`. -/
def client_to_agent_step (mime_type data : String) : ClientAction :=
  if mime_type == "text/plain" then .sendText data
  else if mime_type == "audio/pcm" then
    match b64decodeLenient data with
    | some bytes => .sendBlob bytes mime_type
    | Option.none => .valueError "binascii.Error"
  else .valueError ("Mime type not supported: " ++ mime_type)

/-! ## Dictionary lemmas -/

theorem dget_dset_self (d : PyDict) (k : String) (v : PyVal) :
    dget (dset d k v) k = some v := by
  induction d with
  | nil => simp [dset, dget]
  | cons p rest ih =>
      obtain ⟨k0, v0⟩ := p
      by_cases h : k0 = k
      · subst h; simp [dset, dget]
      · simp [dset, dget, h, ih]

theorem dget_dset_ne (d : PyDict) (k k2 : String) (v : PyVal) (h : k2 ≠ k) :
    dget (dset d k v) k2 = dget d k2 := by
  induction d with
  | nil => simp [dset, dget, Ne.symm h]
  | cons p rest ih =>
      obtain ⟨k0, v0⟩ := p
      by_cases h0 : k0 = k
      · subst h0
        simp [dset, dget, Ne.symm h]
      · simp only [dset, dget, beq_iff_eq, h0, if_false, ih]

theorem hasKey_dset (d : PyDict) (k k2 : String) (v : PyVal) :
    hasKey (dset d k v) k2 = (hasKey d k2 || k2 == k) := by
  by_cases h : k2 = k
  · subst h; simp [hasKey, dget_dset_self]
  · simp [hasKey, dget_dset_ne d k k2 v h, h]

theorem dget_append (d e : PyDict) (k : String) :
    dget (d ++ e) k =
      (match dget d k with
       | some v => some v
       | Option.none => dget e k) := by
  induction d with
  | nil => simp [dget]
  | cons p rest ih =>
      obtain ⟨k0, v0⟩ := p
      by_cases h : k0 = k <;> simp [dget, h, ih]

theorem dget_dsetdefault_ne (d : PyDict) (k k2 : String) (v : PyVal)
    (h : k2 ≠ k) : dget (dsetdefault d k v) k2 = dget d k2 := by
  unfold dsetdefault
  by_cases hk : hasKey d k
  · simp [hk]
  · simp only [hk, if_false, Bool.false_eq_true, dget_append, dget,
      beq_iff_eq, Ne.symm h, if_false]
    rcases dget d k2 with _ | w <;> simp

theorem dget_dsetdefault_self (d : PyDict) (k : String) (v : PyVal) :
    dget (dsetdefault d k v) k =
      (match dget d k with
       | some w => some w
       | Option.none => some v) := by
  unfold dsetdefault
  rcases hk : dget d k with _ | w
  · simp [hasKey, hk, dget_append, dget]
  · simp [hasKey, hk]

theorem dget_dlistAppend_ne (d : PyDict) (k k2 : String) (v : PyVal)
    (h : k2 ≠ k) : dget (dlistAppend d k v) k2 = dget d k2 := by
  unfold dlistAppend
  rcases hk : dget d k with _ | w
  · simp only [dget_append, dget, beq_iff_eq, Ne.symm h, if_false]
    rcases dget d k2 with _ | w <;> simp
  · rcases w <;> simp [dget_dset_ne d k k2 _ h]

/-! ## vCard unfolding: spec-side reformulation and lemmas -/

/-- Spec-side unfolding, following the claim wording: walk the lines
carrying the current unfolded line; a line beginning with a space or tab is
appended (left-stripped) to it, any other line closes it and starts anew. -/
def unfoldSpecGo (cur : String) : List String → List String
  | [] => [cur]
  | l :: rest =>
      if isFoldedLine l then unfoldSpecGo (cur ++ pyLstrip l) rest
      else cur :: unfoldSpecGo l rest

/-- Spec-side unfolding of a whole line list. -/
def unfoldSpec : List String → List String
  | [] => []
  | l :: rest => unfoldSpecGo l rest

theorem foldl_unfoldStep_reverse (rest : List String) :
    ∀ (cur : String) (acc : List String),
      (rest.foldl unfoldStep (cur :: acc)).reverse =
        acc.reverse ++ unfoldSpecGo cur rest := by
  induction rest with
  | nil => intro cur acc; simp [unfoldSpecGo]
  | cons l rest ih =>
      intro cur acc
      by_cases h : isFoldedLine l
      · simp [unfoldStep, h, unfoldSpecGo, ih]
      · simp [unfoldStep, h, unfoldSpecGo, ih]

theorem unfoldLines_eq_unfoldSpec (lines : List String) :
    unfoldLines lines = unfoldSpec lines := by
  cases lines with
  | nil => rfl
  | cons l rest =>
      have h := foldl_unfoldStep_reverse rest l []
      simpa [unfoldLines, unfoldSpec, unfoldStep] using h

theorem foldl_processVcardLine_filter (lines : List String) :
    ∀ fields, lines.foldl processVcardLine fields =
      (lines.filter (fun l => strContains l ":")).foldl applyVcardField fields := by
  induction lines with
  | nil => intro fields; rfl
  | cons l rest ih =>
      intro fields
      by_cases h : strContains l ":" <;>
        simp [processVcardLine, h, List.filter_cons, ih]

theorem foldl_unfoldStep_ne_nil (lines : List String) :
    ∀ acc : List String, acc ≠ [] ∨ lines ≠ [] →
      lines.foldl unfoldStep acc ≠ [] := by
  induction lines with
  | nil =>
      intro acc h
      simpa using h.resolve_right (by simp)
  | cons l rest ih =>
      intro acc _
      have hstep : unfoldStep acc l ≠ [] := by
        unfold unfoldStep
        cases acc with
        | nil => simp
        | cons a t => by_cases hf : isFoldedLine l <;> simp [hf]
      simpa using ih (unfoldStep acc l) (Or.inl hstep)

/-! ## Tracking the `name` field through the vCard field loop -/

/-- The contribution of a line to `fields["name"]` via the `FN` branch: the
line contains a `:` and its key is `FN`. -/
def fnLineVal (line : String) : Option String :=
  if strContains line ":" ∧ vcardKey line = "FN" then some (vcardVal line)
  else Option.none

theorem processVcardLine_fn (fields : PyDict) (line : String) (v : String)
    (h : fnLineVal line = some v) :
    processVcardLine fields line = dset fields "name" (.str v) := by
  unfold fnLineVal at h
  by_cases hc : strContains line ":" ∧ vcardKey line = "FN"
  · rw [if_pos hc] at h
    obtain ⟨hc1, hc2⟩ := hc
    cases h
    simp [processVcardLine, hc1, applyVcardField, hc2]
  · rw [if_neg hc] at h; cases h

theorem processVcardLine_name_stable (fields : PyDict) (line : String)
    (w : PyVal) (hfn : fnLineVal line = Option.none)
    (hname : dget fields "name" = some w) :
    dget (processVcardLine fields line) "name" = some w := by
  unfold processVcardLine
  by_cases hc : strContains line ":"
  · rw [if_neg (by simpa using hc)]
    unfold applyVcardField
    by_cases h1 : vcardKey line = "FN"
    · exfalso
      unfold fnLineVal at hfn
      rw [if_pos ⟨hc, h1⟩] at hfn
      cases hfn
    · simp only [beq_iff_eq, h1, if_false]
      by_cases h2 : vcardKey line = "N"
      · have hk : hasKey fields "name" = true := by
          simp [hasKey, hname]
        simp [h2, dsetdefault, hk, hname]
      · simp only [beq_iff_eq, h2, if_false]
        by_cases h3 : vcardKey line = "TITLE"
        · simpa [h3] using
            (dget_dset_ne fields "title" "name" _ (by decide)).trans hname
        · simp only [beq_iff_eq, h3, if_false]
          by_cases h4 : vcardKey line = "ORG"
          · simpa [h4] using
              (dget_dset_ne fields "company" "name" _ (by decide)).trans hname
          · simp only [beq_iff_eq, h4, if_false]
            by_cases h5 : vcardKey line = "ADR"
            · simp only [h5, beq_iff_eq, if_true]
              split <;> split <;>
                first
                  | exact hname
                  | exact (dget_dset_ne fields "location" "name" _
                      (by decide)).trans hname
            · simp only [beq_iff_eq, h5, if_false]
              by_cases h7 : vcardKey line = "EMAIL"
              · simpa [h7] using
                  (dget_dlistAppend_ne fields "emails" "name" _
                    (by decide)).trans hname
              · simp only [beq_iff_eq, h7, if_false]
                by_cases h8 : vcardKey line = "TEL"
                · simpa [h8] using
                    (dget_dlistAppend_ne fields "phones" "name" _
                      (by decide)).trans hname
                · simp only [beq_iff_eq, h8, if_false]
                  by_cases h9 : vcardKey line = "URL"
                  · simpa [h9] using
                      (dget_dlistAppend_ne fields "urls" "name" _
                        (by decide)).trans hname
                  · simp [h9, hname]
  · rw [if_pos (by simpa using hc)]
    exact hname

theorem foldl_name_stable (lines : List String) :
    ∀ (fields : PyDict) (w : PyVal),
      lines.filterMap fnLineVal = [] → dget fields "name" = some w →
      dget (lines.foldl processVcardLine fields) "name" = some w := by
  induction lines with
  | nil => intro fields w _ hname; simpa using hname
  | cons l rest ih =>
      intro fields w hfn hname
      rw [List.filterMap_cons] at hfn
      rcases hl : fnLineVal l with _ | v
      · rw [hl] at hfn
        exact ih _ w hfn (processVcardLine_name_stable fields l w hl hname)
      · rw [hl] at hfn; cases hfn

theorem foldl_name_lastFn (lines : List String) :
    ∀ (fields : PyDict) (v : String),
      (lines.filterMap fnLineVal).getLast? = some v →
      dget (lines.foldl processVcardLine fields) "name" = some (.str v) := by
  induction lines with
  | nil => intro fields v h; simp at h
  | cons l rest ih =>
      intro fields v h
      rcases hl : fnLineVal l with _ | u
      · rw [List.filterMap_cons, hl] at h
        rw [List.foldl_cons]
        exact ih _ v h
      · rw [List.filterMap_cons, hl] at h
        rcases hrest : rest.filterMap fnLineVal with _ | ⟨u2, vs⟩
        · rw [hrest] at h
          simp only [List.getLast?_singleton, Option.some.injEq] at h
          subst h
          rw [List.foldl_cons, processVcardLine_fn fields l u hl]
          exact foldl_name_stable rest _ _ hrest (dget_dset_self _ _ _)
        · have hlast : (rest.filterMap fnLineVal).getLast? = some v := by
            rw [hrest] at h ⊢
            rwa [List.getLast?_cons_cons] at h
          rw [List.foldl_cons]
          exact ih _ v hlast

/-! ## Pattern bridging lemmas -/

theorem dropLit_eq_some (lit : List Char) :
    ∀ (l r : List Char), dropLit lit l = some r ↔ l = lit ++ r := by
  induction lit with
  | nil => intro l r; simp [dropLit]
  | cons c cs ih =>
      intro l r
      cases l with
      | nil => simp [dropLit]
      | cons x xs =>
          by_cases h : x = c
          · subst h; simp [dropLit, ih]
          · simp [dropLit, h]

theorem isPrefixOf_iff_exists (pre l : List Char) :
    pre.isPrefixOf l = true ↔ ∃ r, l = pre ++ r := by
  rw [List.isPrefixOf_iff_prefix]
  constructor
  · rintro ⟨t, ht⟩; exact ⟨t, ht.symm⟩
  · rintro ⟨t, ht⟩; exact ⟨t, ht.symm⟩

/-- Claim-side URL test: the string begins, case-insensitively, with
`http://` or `https://`. -/
def startsWithHttpCI (s : String) : Bool :=
  strStartsWith (pyLower s) "http://" || strStartsWith (pyLower s) "https://"

/-- Claim-side vCard test: the uppercased string starts with `BEGIN:VCARD`
and contains `END:VCARD`. -/
def vcardShaped (s : String) : Bool :=
  strStartsWith (pyUpper s) "BEGIN:VCARD" && strContains (pyUpper s) "END:VCARD"

theorem urlSchemeMatch_eq_claim (s : String) :
    urlSchemeMatch s.toList = startsWithHttpCI s := by
  rw [Bool.eq_iff_iff]
  simp only [startsWithHttpCI, strStartsWith, pyLower, Bool.or_eq_true]
  have hM : (List.asString (s.toList.map Char.toLower)).toList
      = s.toList.map Char.toLower := rfl
  rw [hM]
  set M := s.toList.map Char.toLower with hMdef
  simp only [urlSchemeMatch, isPrefixOf_iff_exists]
  constructor
  · intro h
    rcases hd : dropLit "http".toList M with _ | r
    · rw [hd] at h; cases h
    · rw [hd] at h
      have hM4 : M = "http".toList ++ r := (dropLit_eq_some _ _ _).mp hd
      rcases Bool.or_eq_true _ _ |>.mp h with h2 | h2
      · rcases hd2 : dropLit "://".toList r with _ | r2
        · rw [hd2] at h2; cases h2
        · have : r = "://".toList ++ r2 := (dropLit_eq_some _ _ _).mp hd2
          exact Or.inl ⟨r2, by rw [hM4, this]; rfl⟩
      · rcases hd2 : dropLit "s://".toList r with _ | r2
        · rw [hd2] at h2; cases h2
        · have : r = "s://".toList ++ r2 := (dropLit_eq_some _ _ _).mp hd2
          exact Or.inr ⟨r2, by rw [hM4, this]; rfl⟩
  · intro h
    rcases h with ⟨r, hr⟩ | ⟨r, hr⟩
    · have h4 : M = "http".toList ++ ("://".toList ++ r) := by
        rw [hr]; rfl
      rw [(dropLit_eq_some "http".toList M _).mpr h4]
      have h5 : dropLit [':', '/', '/'] (':' :: '/' :: '/' :: r) = some r :=
        (dropLit_eq_some _ _ _).mpr rfl
      simp [h5]
    · have h4 : M = "http".toList ++ ("s://".toList ++ r) := by
        rw [hr]; rfl
      rw [(dropLit_eq_some "http".toList M _).mpr h4]
      have h5 : dropLit ['s', ':', '/', '/'] ('s' :: ':' :: '/' :: '/' :: r) = some r :=
        (dropLit_eq_some _ _ _).mpr rfl
      simp [h5]

/-- Claim-side classification decision tree: `"url"` iff the payload begins
case-insensitively with `http://` or `https://`, otherwise `"vcard"` iff it
is vCard-shaped, otherwise `"text"`. -/
def claimKind (s : String) : String :=
  if startsWithHttpCI s then "url"
  else if vcardShaped s then "vcard" else "text"

theorem classify_payload_shape (p : String) :
    classify_payload p = ("url", [("url", PyVal.str (pyStrip p))]) ∨
    classify_payload p =
      ("vcard", [("vcard", PyVal.dict (parse_vcard (pyStrip p)))]) ∨
    classify_payload p = ("text", [("text", PyVal.str (pyStrip p))]) := by
  simp only [classify_payload]
  by_cases h1 : urlSchemeMatch (pyStrip p).toList = true
  · rw [if_pos h1]; exact Or.inl rfl
  · rw [if_neg h1]
    by_cases h2 : (strStartsWith (pyUpper (pyStrip p)) "BEGIN:VCARD" &&
        strContains (pyUpper (pyStrip p)) "END:VCARD") = true
    · rw [if_pos h2]; exact Or.inr (Or.inl rfl)
    · rw [if_neg h2]; exact Or.inr (Or.inr rfl)

/-- Claim C3 — `QRDecoder._classify_payload` assigns exactly one of the three
kinds, by the claim's decision tree: `"url"` iff the stripped payload
begins (case-insensitively) with `http://` or `https://`, otherwise
`"vcard"` iff the uppercased stripped payload starts with `BEGIN:VCARD`
and contains `END:VCARD`, otherwise `"text"`. -/
theorem classify_payload_kind_eq (payload : String) :
    (classify_payload payload).1 = claimKind (pyStrip payload) := by
  simp only [classify_payload, claimKind, vcardShaped]
  rw [← urlSchemeMatch_eq_claim]
  by_cases h1 : urlSchemeMatch (pyStrip payload).toList = true
  · rw [if_pos h1, if_pos h1]
  · rw [if_neg h1, if_neg h1]
    by_cases h2 : (strStartsWith (pyUpper (pyStrip payload)) "BEGIN:VCARD" &&
        strContains (pyUpper (pyStrip payload)) "END:VCARD") = true
    · rw [if_pos h2, if_pos h2]
    · rw [if_neg h2, if_neg h2]

theorem firstPreferred_default_shape (cands : List String) :
    firstPreferred ["url", "vcard"] cands = [] ∨
    (∃ u, firstPreferred ["url", "vcard"] cands = [("url", PyVal.str u)]) ∨
    (∃ v, firstPreferred ["url", "vcard"] cands =
        [("vcard", PyVal.dict v)]) := by
  induction cands with
  | nil => exact Or.inl rfl
  | cons p rest ih =>
      rcases classify_payload_shape p with h | h | h
      · exact Or.inr (Or.inl ⟨pyStrip p, by simp [firstPreferred, h]⟩)
      · exact Or.inr (Or.inr ⟨parse_vcard (pyStrip p),
          by simp [firstPreferred, h]⟩)
      · simpa [firstPreferred, h] using ih

theorem firstPreferred_all_text (cands : List String)
    (h : ∀ p ∈ cands, (classify_payload p).1 = "text") :
    firstPreferred ["url", "vcard"] cands = [] := by
  induction cands with
  | nil => rfl
  | cons p rest ih =>
      have hp := h p (List.mem_cons_self p rest)
      rcases classify_payload_shape p with hs | hs | hs
      · rw [hs] at hp
        exact absurd (show "url" = "text" from hp) (by decide)
      · rw [hs] at hp
        exact absurd (show "vcard" = "text" from hp) (by decide)
      · simpa [firstPreferred, hs] using
          ih (fun q hq => h q (List.mem_cons_of_mem p hq))

/-- Claim C9 — with the default preference tuple `("url", "vcard")`,
`QRDecoder.decode` only ever returns `{"url": ...}`, `{"vcard": ...}` or
`{}`; in particular, when every candidate payload classifies as plain
text, it returns `{}` — the `"text"` classification is never surfaced. -/
theorem qrdecoder_decode_default_shape (env : QRDecoderEnv) :
    (qrdecoder_decode env ["url", "vcard"] = [] ∨
     (∃ u, qrdecoder_decode env ["url", "vcard"] = [("url", PyVal.str u)]) ∨
     (∃ v, qrdecoder_decode env ["url", "vcard"] =
         [("vcard", PyVal.dict v)]))
    ∧ ((∀ p ∈ qrCandidates env, (classify_payload p).1 = "text") →
        qrdecoder_decode env ["url", "vcard"] = []) := by
  constructor
  · unfold qrdecoder_decode
    by_cases hl : env.loaded
    · simpa [hl] using firstPreferred_default_shape (qrCandidates env)
    · simp [hl]
  · intro h
    unfold qrdecoder_decode
    by_cases hl : env.loaded
    · simpa [hl] using firstPreferred_all_text (qrCandidates env) h
    · simp [hl]

/-- Witness for the C9 theorem: a decoded payload that classifies as plain
text is dropped and `decode` returns `{}`. -/
theorem qrdecoder_decode_default_shape_witness :
    qrdecoder_decode ⟨true, ["hello world"], []⟩ ["url", "vcard"] = [] :=
  (qrdecoder_decode_default_shape ⟨true, ["hello world"], []⟩).2 (by decide)

/-- Claim C4 — `QRDecoder._parse_vcard` equals the claim-side pipeline: after
normalizing line endings to `\n`, lines are unfolded (a line beginning with
a space or tab is appended, left-stripped, to the preceding unfolded line),
then exactly the unfolded lines containing `:` are folded into the fields
dictionary with the key taken case-insensitively before the first `;` and
mapped FN/N → name, TITLE → title, ORG → company, ADR → location and
EMAIL/TEL/URL accumulated into lists. -/
theorem parse_vcard_unfold_filter (text : String) :
    (parse_vcard text =
      ((unfoldSpec (vcardLines text)).filter
        (fun l => strContains l ":")).foldl applyVcardField [])
    ∧ (∀ (lines : List String) (l : String),
        isFoldedLine l = true → lines ≠ [] →
        ∃ pre last, unfoldLines lines = pre ++ [last] ∧
          unfoldLines (lines ++ [l]) = pre ++ [last ++ pyLstrip l]) := by
  constructor
  · unfold parse_vcard
    rw [unfoldLines_eq_unfoldSpec, foldl_processVcardLine_filter]
  · intro lines l hfold hne
    have hacc : lines.foldl unfoldStep [] ≠ [] :=
      foldl_unfoldStep_ne_nil lines [] (Or.inr hne)
    rcases hcons : lines.foldl unfoldStep [] with _ | ⟨a, t⟩
    · exact absurd hcons hacc
    · refine ⟨t.reverse, a, ?_, ?_⟩
      · unfold unfoldLines; rw [hcons]; simp
      · unfold unfoldLines
        rw [List.foldl_append, hcons]
        simp [unfoldStep, hfold]

/-- Witness for the C4 theorem: a folded continuation line is merged into
the preceding line with its leading whitespace removed. -/
theorem parse_vcard_unfold_filter_witness :
    ∃ pre last,
      unfoldLines ["FN:An", "ORG:Acme"] = pre ++ [last] ∧
      unfoldLines (["FN:An", "ORG:Acme"] ++ ["  Corp"]) =
        pre ++ [last ++ pyLstrip "  Corp"] :=
  (parse_vcard_unfold_filter "").2 ["FN:An", "ORG:Acme"] "  Corp"
    (by decide) (by decide)

/-- Claim C10 — in `QRDecoder._parse_vcard` an FN field always determines the
returned name: whenever the unfolded lines contain at least one FN line,
the `"name"` field of the result is the value of the last FN line,
regardless of any N lines before or after it. -/
theorem parse_vcard_last_fn_wins (text : String) (v : String)
    (h : ((unfoldLines (vcardLines text)).filterMap fnLineVal).getLast?
        = some v) :
    dget (parse_vcard text) "name" = some (PyVal.str v) := by
  unfold parse_vcard
  exact foldl_name_lastFn _ [] v h

/-- Witness for the C10 theorem: an N line before an FN line and a second
FN line — the last FN value wins. -/
theorem parse_vcard_last_fn_wins_witness :
    dget (parse_vcard "BEGIN:VCARD\nN:Fam;Giv\nFN:First\nFN:Last\nEND:VCARD")
        "name" = some (PyVal.str "Last") :=
  parse_vcard_last_fn_wins
    "BEGIN:VCARD\nN:Fam;Giv\nFN:First\nFN:Last\nEND:VCARD" "Last" (by decide)

/-! ## C1 — `qr_to_vcard_or_url` -/

theorem qr_result_shape (outcome : QrDecodeOutcome) :
    (∃ msg, qr_to_vcard_or_url outcome =
        [("status", PyVal.str "error"), ("message", PyVal.str msg)]) ∨
    (∃ u, qr_to_vcard_or_url outcome =
        [("status", PyVal.str "success"), ("linkedin_url", PyVal.str u)]) := by
  cases outcome with
  | unidentifiedImage => exact Or.inl ⟨_, rfl⟩
  | otherExc => exact Or.inl ⟨_, rfl⟩
  | decoded res =>
      cases res with
      | none => exact Or.inl ⟨_, rfl⟩
      | some d =>
          by_cases hd : d == ""
          · exact Or.inl ⟨"No QR code found in image.",
              by simp [qr_to_vcard_or_url, hd]⟩
          · by_cases hm : is_linkedin_profile_url (qrNormalize d) = true
            · exact Or.inr ⟨qrNormalize d,
                by simp [qr_to_vcard_or_url, hd, hm]⟩
            · exact Or.inl ⟨"We only accept LinkedIn profile URLs at the moment.",
                by simp [qr_to_vcard_or_url, hd, hm]⟩

theorem qr_success_char (outcome : QrDecodeOutcome) (u : String) :
    qr_to_vcard_or_url outcome =
      [("status", PyVal.str "success"), ("linkedin_url", PyVal.str u)]
    ↔ ∃ s, outcome = QrDecodeOutcome.decoded (some s) ∧ u = qrNormalize s
        ∧ is_linkedin_profile_url (qrNormalize s) = true := by
  constructor
  · intro h
    cases outcome with
    | unidentifiedImage => exact absurd h (by simp [qr_to_vcard_or_url])
    | otherExc => exact absurd h (by simp [qr_to_vcard_or_url])
    | decoded res =>
        cases res with
        | none => exact absurd h (by simp [qr_to_vcard_or_url])
        | some d =>
            by_cases hd : d == ""
            · exact absurd h (by simp [qr_to_vcard_or_url, hd])
            · by_cases hm : is_linkedin_profile_url (qrNormalize d) = true
              · refine ⟨d, rfl, ?_, hm⟩
                have := h
                simp [qr_to_vcard_or_url, hd, hm] at this
                exact this.symm
              · exact absurd h (by simp [qr_to_vcard_or_url, hd, hm])
  · rintro ⟨s, rfl, rfl, hm⟩
    have hs : ¬ (s == "") := by
      intro hs
      rw [show s = "" from by simpa using hs] at hm
      exact absurd hm (by decide)
    simp [qr_to_vcard_or_url, hs, hm]

/-- Claim C1 — `qr_to_vcard_or_url` returns an error dictionary (with a
message) on an unreadable image, on a missing QR code, and on a payload
whose scheme-normalized form does not match the LinkedIn profile-URL
pattern; it returns `{"status": "success", "linkedin_url": u}` exactly
when the normalized payload `u` matches that pattern. -/
theorem qr_to_vcard_or_url_spec (outcome : QrDecodeOutcome) :
    ((∃ msg, qr_to_vcard_or_url outcome =
        [("status", PyVal.str "error"), ("message", PyVal.str msg)]) ∨
     (∃ u, qr_to_vcard_or_url outcome =
        [("status", PyVal.str "success"), ("linkedin_url", PyVal.str u)]))
    ∧ (∀ u : String,
        qr_to_vcard_or_url outcome =
          [("status", PyVal.str "success"), ("linkedin_url", PyVal.str u)]
        ↔ ∃ s, outcome = QrDecodeOutcome.decoded (some s)
            ∧ u = qrNormalize s
            ∧ is_linkedin_profile_url (qrNormalize s) = true) :=
  ⟨qr_result_shape outcome, fun u => qr_success_char outcome u⟩

/-- Witness for the C1 theorem: a scheme-less LinkedIn payload is
normalized and accepted; a non-LinkedIn payload is rejected with an error
message. -/
theorem qr_to_vcard_or_url_spec_witness :
    qr_to_vcard_or_url (QrDecodeOutcome.decoded (some "www.linkedin.com/in/abc"))
      = [("status", PyVal.str "success"),
         ("linkedin_url", PyVal.str "https://www.linkedin.com/in/abc")] :=
  ((qr_to_vcard_or_url_spec
      (QrDecodeOutcome.decoded (some "www.linkedin.com/in/abc"))).2
    "https://www.linkedin.com/in/abc").mpr
    ⟨"www.linkedin.com/in/abc", rfl, by decide, by decide⟩

/-! ## C2 — `linkedin_profile_extractor` -/

theorem extractor_result_shape (env : ExtractorEnv) (url : String)
    (email password : Option String) :
    hasKey (linkedin_profile_extractor env url email password) "error" = true ∨
    (∃ data, env.subproc = SubprocOutcome.ok data ∧
      linkedin_profile_extractor env url email password
        = dset data "url" (PyVal.str (extractorNormalize url))) := by
  unfold linkedin_profile_extractor
  by_cases h1 : is_linkedin_profile_url (extractorNormalize url) = true
  · rw [if_neg (by simp [h1])]
    by_cases h2 : env.scriptFound = true
    · rw [if_neg (by simp [h2])]
      by_cases h3 : (¬ optStrTruthy (pyOrStr email env.envEmail) = true
          ∨ ¬ optStrTruthy (pyOrStr password env.envPassword) = true)
      · rw [if_pos (by simpa using h3)]
        exact Or.inl rfl
      · rw [if_neg (by simpa using h3)]
        rcases hs : env.subproc with h | h | data
        · exact Or.inl rfl
        · exact Or.inl rfl
        · exact Or.inr ⟨data, rfl, rfl⟩
    · rw [if_pos (by simp [h2])]
      exact Or.inl rfl
  · rw [if_pos (by simp [h1])]
    exact Or.inl rfl

/-- Claim C2 — `linkedin_profile_extractor` returns either the profile
dictionary with keys name/position/company/location/url and `"url"` set to
the normalized input URL, or a dictionary with an `"error"` key; in
particular a non-matching URL, a missing scraper script, missing
credentials and a failed scraper subprocess each yield an `"error"`
dictionary.  (The hypothesis says the scraper output file itself is either
a five-key profile or an error dictionary, as the scraper interface
specifies.) -/
theorem linkedin_profile_extractor_spec (env : ExtractorEnv) (url : String)
    (email password : Option String)
    (hdata : ∀ data, env.subproc = SubprocOutcome.ok data →
        ((∀ k, hasKey data k = true ↔
            k ∈ ["name", "position", "company", "location", "url"]) ∨
         hasKey data "error" = true)) :
    (hasKey (linkedin_profile_extractor env url email password) "error" = true ∨
      ((∀ k, hasKey (linkedin_profile_extractor env url email password) k = true
          ↔ k ∈ ["name", "position", "company", "location", "url"])
        ∧ dget (linkedin_profile_extractor env url email password) "url"
            = some (PyVal.str (extractorNormalize url))))
    ∧ (is_linkedin_profile_url (extractorNormalize url) = false →
        linkedin_profile_extractor env url email password
          = [("error", PyVal.str "Invalid LinkedIn profile URL.")])
    ∧ (is_linkedin_profile_url (extractorNormalize url) = true →
        env.scriptFound = false →
        linkedin_profile_extractor env url email password
          = [("error", PyVal.str "linkedin_scrape_chrome.py not found")])
    ∧ (is_linkedin_profile_url (extractorNormalize url) = true →
        env.scriptFound = true →
        (optStrTruthy (pyOrStr email env.envEmail) = false ∨
         optStrTruthy (pyOrStr password env.envPassword) = false) →
        linkedin_profile_extractor env url email password
          = [("error", PyVal.str "Missing EMAIL/PASSWORD for LinkedIn")])
    ∧ (∀ se so ex, env.subproc = SubprocOutcome.calledProcessError se so ex →
        hasKey (linkedin_profile_extractor env url email password) "error"
          = true) := by
  refine ⟨?_, ?_, ?_, ?_, ?_⟩
  · rcases extractor_result_shape env url email password with h | ⟨data, hok, hr⟩
    · exact Or.inl h
    · rcases hdata data hok with hfive | herr
      · refine Or.inr ⟨?_, ?_⟩
        · intro k
          rw [hr, hasKey_dset]
          constructor
          · intro hk
            rcases Bool.or_eq_true _ _ |>.mp hk with hk | hk
            · exact (hfive k).mp hk
            · rw [show k = "url" from by simpa using hk]
              simp
          · intro hk
            exact Bool.or_eq_true _ _ |>.mpr (Or.inl ((hfive k).mpr hk))
        · rw [hr]; exact dget_dset_self data "url" _
      · refine Or.inl ?_
        rw [hr]
        have : hasKey (dset data "url" (PyVal.str (extractorNormalize url)))
            "error" = (hasKey data "error" || ("error" == "url")) :=
          hasKey_dset data "url" "error" _
        rw [this, herr]
        rfl
  · intro h1
    unfold linkedin_profile_extractor
    rw [if_pos (by simp [h1])]
  · intro h1 h2
    unfold linkedin_profile_extractor
    rw [if_neg (by simp [h1]), if_pos (by simp [h2])]
  · intro h1 h2 h3
    unfold linkedin_profile_extractor
    rw [if_neg (by simp [h1]), if_neg (by simp [h2]),
      if_pos (by rcases h3 with h3 | h3 <;> simp [h3])]
  · intro se so ex hcpe
    unfold linkedin_profile_extractor
    by_cases h1 : is_linkedin_profile_url (extractorNormalize url) = true
    · rw [if_neg (by simp [h1])]
      by_cases h2 : env.scriptFound = true
      · rw [if_neg (by simp [h2])]
        by_cases h3 : (¬ optStrTruthy (pyOrStr email env.envEmail) = true
            ∨ ¬ optStrTruthy (pyOrStr password env.envPassword) = true)
        · rw [if_pos (by simpa using h3)]; rfl
        · rw [if_neg (by simpa using h3), hcpe]; rfl
      · rw [if_pos (by simp [h2])]; rfl
    · rw [if_pos (by simp [h1])]; rfl

/-- Witness for the C2 theorem: missing credentials yield the
missing-credentials error dictionary. -/
theorem linkedin_profile_extractor_spec_witness :
    linkedin_profile_extractor
      { scriptFound := true, envEmail := Option.none,
        envPassword := Option.none,
        subproc := SubprocOutcome.ok [("error", PyVal.str "boom")] }
      "https://www.linkedin.com/in/slug" Option.none Option.none
      = [("error", PyVal.str "Missing EMAIL/PASSWORD for LinkedIn")] :=
  (linkedin_profile_extractor_spec
      { scriptFound := true, envEmail := Option.none,
        envPassword := Option.none,
        subproc := SubprocOutcome.ok [("error", PyVal.str "boom")] }
      "https://www.linkedin.com/in/slug" Option.none Option.none
      (fun data h => by cases h; exact Or.inr rfl)).2.2.2.1
    (by decide) rfl (Or.inl rfl)

/-! ## C5 — client→agent WebSocket dispatch -/

/-- Claim C5 — the client→agent handler forwards exactly the two supported
mime types: `text/plain` data is forwarded as text, `audio/pcm` data is
base64-decoded and forwarded as a blob, and an envelope with any other
mime type raises a `ValueError` instead of being forwarded. -/
theorem client_to_agent_step_spec (mime_type data : String) :
    (mime_type = "text/plain" →
      client_to_agent_step mime_type data = ClientAction.sendText data)
    ∧ (mime_type = "audio/pcm" →
        ∀ bytes, b64decodeLenient data = some bytes →
          client_to_agent_step mime_type data
            = ClientAction.sendBlob bytes mime_type)
    ∧ (mime_type ≠ "text/plain" → mime_type ≠ "audio/pcm" →
        client_to_agent_step mime_type data
          = ClientAction.valueError ("Mime type not supported: " ++ mime_type))
    ∧ (∀ t, client_to_agent_step mime_type data = ClientAction.sendText t →
        mime_type = "text/plain")
    ∧ (∀ b m, client_to_agent_step mime_type data = ClientAction.sendBlob b m →
        mime_type = "audio/pcm") := by
  refine ⟨?_, ?_, ?_, ?_, ?_⟩
  · intro h; subst h; rfl
  · intro h bytes hb; subst h
    unfold client_to_agent_step
    rw [if_neg (by decide), if_pos (by decide), hb]
  · intro h1 h2
    unfold client_to_agent_step
    rw [if_neg (by simpa using h1), if_neg (by simpa using h2)]
  · intro t h
    by_cases m1 : mime_type = "text/plain"
    · exact m1
    · exfalso
      by_cases m2 : mime_type = "audio/pcm"
      · subst m2
        unfold client_to_agent_step at h
        rw [if_neg (by decide), if_pos (by decide)] at h
        rcases hb : b64decodeLenient data with _ | bytes <;>
          rw [hb] at h <;> cases h
      · unfold client_to_agent_step at h
        rw [if_neg (by simpa using m1), if_neg (by simpa using m2)] at h
        cases h
  · intro b m h
    by_cases m2 : mime_type = "audio/pcm"
    · exact m2
    · exfalso
      by_cases m1 : mime_type = "text/plain"
      · subst m1
        unfold client_to_agent_step at h
        rw [if_pos (by decide)] at h
        cases h
      · unfold client_to_agent_step at h
        rw [if_neg (by simpa using m1), if_neg (by simpa using m2)] at h
        cases h

/-- Witness for the C5 theorem: a `text/plain` envelope is forwarded as
text and an unsupported mime type raises. -/
theorem client_to_agent_step_spec_witness :
    client_to_agent_step "text/plain" "hello"
      = ClientAction.sendText "hello"
    ∧ client_to_agent_step "image/png" "zzz"
      = ClientAction.valueError ("Mime type not supported: " ++ "image/png") :=
  ⟨(client_to_agent_step_spec "text/plain" "hello").1 rfl,
   (client_to_agent_step_spec "image/png" "zzz").2.2.1
     (by decide) (by decide)⟩

/-! ## C6 — profile dictionary shapes -/

theorem nl_keys (env : NlEnv) (text : String) :
    dictKeys (nl_to_json_extractor env text)
      = ["name", "position", "company", "location", "url"] := by
  unfold nl_to_json_extractor
  split
  · rfl
  · split
    · rfl
    · dsimp only
      split
      · rfl
      · rfl

/-- Counterexample to C6 as stated: the scraper analysis step does not
return a dictionary with exactly the five profile keys — when the Gemini
response parses to the empty JSON object, the result holds only `url`
(and on the success path it holds whatever keys Gemini returned, a
superset of the five by the prompt schema). -/
theorem analyze_with_gemini_keys_counterexample :
    dictKeys (analyze_with_gemini (GeminiAnalysisOutcome.parsed [])
        "https://www.linkedin.com/in/slug") = ["url"]
    ∧ (["url"] ≠ ["name", "position", "company", "location", "url"]) :=
  ⟨rfl, by decide⟩

/-- Claim C6, amended — `generic_profile` and `nl_to_json_extractor` return
dictionaries with exactly the keys name/position/company/location/url, and
`render_prompt_from_json`'s `"profile"` output contains exactly these
keys; the scraper's analysis step returns a dictionary that always
contains `"url"`: the parsed Gemini JSON with `url` set, or an error
dictionary. -/
theorem profile_keys_spec :
    (dictKeys generic_profile
      = ["name", "position", "company", "location", "url"])
    ∧ (∀ env text, dictKeys (nl_to_json_extractor env text)
        = ["name", "position", "company", "location", "url"])
    ∧ (∀ profile extra, ∃ p,
        dget (render_prompt_from_json profile extra) "profile"
          = some (PyVal.dict p)
        ∧ dictKeys p = ["name", "position", "company", "location", "url"])
    ∧ (∀ outcome purl,
        hasKey (analyze_with_gemini outcome purl) "url" = true
        ∧ (hasKey (analyze_with_gemini outcome purl) "error" = true
           ∨ ∃ data, outcome = GeminiAnalysisOutcome.parsed data
              ∧ analyze_with_gemini outcome purl
                  = dset data "url" (PyVal.str purl))) := by
  refine ⟨rfl, nl_keys, ?_, ?_⟩
  · intro profile extra
    exact ⟨_, rfl, rfl⟩
  · intro outcome purl
    cases outcome with
    | jsonDecodeError raw => exact ⟨rfl, Or.inl rfl⟩
    | otherExc msg => exact ⟨rfl, Or.inl rfl⟩
    | parsed data =>
        refine ⟨?_, Or.inr ⟨data, rfl, rfl⟩⟩
        rw [show analyze_with_gemini (GeminiAnalysisOutcome.parsed data) purl
            = dset data "url" (PyVal.str purl) from rfl, hasKey_dset]
        simp

/-! ## C7 — totality of the tool layer -/

theorem qr_status_shape (outcome : QrDecodeOutcome) :
    dgetEqStr (qr_to_vcard_or_url outcome) "status" "success" = true ∨
    dgetEqStr (qr_to_vcard_or_url outcome) "status" "error" = true := by
  rcases qr_result_shape outcome with ⟨msg, h⟩ | ⟨u, h⟩ <;> rw [h]
  · right; rfl
  · left; rfl

theorem buildFromUrlOrPrefs_shape (env : AgentEnv) (inp : BuildInput) :
    hasKey (buildFromUrlOrPrefs env inp) "error" = true ∨
    dictKeys (buildFromUrlOrPrefs env inp)
      = ["name", "position", "company", "location", "url"] ∨
    (∃ data u, env.extractor.subproc = SubprocOutcome.ok data ∧
      buildFromUrlOrPrefs env inp
        = dset data "url" (PyVal.str (extractorNormalize u))) := by
  obtain ⟨ib, mt, lu, pr, em, pw⟩ := inp
  unfold buildFromUrlOrPrefs
  rcases lu with _ | u
  · dsimp only
    rcases pr with _ | p
    · exact Or.inr (Or.inl rfl)
    · dsimp only
      by_cases hp : p != ""
      · rw [if_pos hp]
        exact Or.inr (Or.inl (nl_keys env.nl p))
      · rw [if_neg hp]
        exact Or.inr (Or.inl rfl)
  · dsimp only
    by_cases hu : u != ""
    · rw [if_pos hu]
      rcases extractor_result_shape env.extractor u em pw with h | ⟨data, hok, hr⟩
      · exact Or.inl h
      · exact Or.inr (Or.inr ⟨data, u, hok, hr⟩)
    · rw [if_neg hu]
      rcases pr with _ | p
      · exact Or.inr (Or.inl rfl)
      · dsimp only
        by_cases hp : p != ""
        · rw [if_pos hp]
          exact Or.inr (Or.inl (nl_keys env.nl p))
        · rw [if_neg hp]
          exact Or.inr (Or.inl rfl)

theorem build_profile_shape (env : AgentEnv) (inp : BuildInput) :
    hasKey (build_profile env inp) "error" = true ∨
    dictKeys (build_profile env inp)
      = ["name", "position", "company", "location", "url"] ∨
    (∃ data u, env.extractor.subproc = SubprocOutcome.ok data ∧
      build_profile env inp
        = dset data "url" (PyVal.str (extractorNormalize u))) := by
  obtain ⟨ib, mt, lu, pr, em, pw⟩ := inp
  unfold build_profile
  rcases ib with _ | bytes
  · exact buildFromUrlOrPrefs_shape env _
  · dsimp only
    by_cases hb : bytes.isEmpty
    · rw [if_pos hb]
      exact buildFromUrlOrPrefs_shape env _
    · rw [if_neg hb]
      by_cases hq : dgetEqStr (qr_to_vcard_or_url (env.qrDecode bytes))
          "status" "success" = true
      · rw [if_pos hq]
        exact buildFromUrlOrPrefs_shape env _
      · rw [if_neg hq]
        exact Or.inl rfl

/-- Claim C7 — the profile-building tools are total toward their caller: for
every input and environment, `parse_qr_b64`, `google_search` and
`build_profile` return a dictionary — a success result, or one with an
`"error"` key or `"status": "error"`; in particular `parse_qr_b64` returns
a `"status": "error"` dictionary when the input is not valid base64.
(Every exception-capable call in these functions sits inside a
`try`/`except` that is modelled by the outcome environments, so the Lean
functions are total exactly as the Python ones are exception-free.) -/
theorem tool_call_totality (env : AgentEnv) (b64 : String) (inp : BuildInput)
    (outcome : SearchOutcome) (query : String) (n : Int) :
    (dgetEqStr (parse_qr_b64 env b64) "status" "success" = true ∨
     dgetEqStr (parse_qr_b64 env b64) "status" "error" = true)
    ∧ (b64decodeStrict b64 = Option.none →
        parse_qr_b64 env b64 = [("status", PyVal.str "error"),
          ("message", PyVal.str "Invalid base64: invalid data")])
    ∧ (dgetEqStr (google_search outcome query n) "status" "success" = true ∨
       dgetEqStr (google_search outcome query n) "status" "error" = true)
    ∧ (hasKey (build_profile env inp) "error" = true ∨
       dictKeys (build_profile env inp)
         = ["name", "position", "company", "location", "url"] ∨
       (∃ data u, env.extractor.subproc = SubprocOutcome.ok data ∧
          build_profile env inp
            = dset data "url" (PyVal.str (extractorNormalize u)))) := by
  refine ⟨?_, ?_, ?_, build_profile_shape env inp⟩
  · unfold parse_qr_b64
    rcases hb : b64decodeStrict b64 with _ | bytes
    · right; rfl
    · exact qr_status_shape (env.qrDecode bytes)
  · intro h
    unfold parse_qr_b64
    rw [h]
  · cases outcome with
    | importError => right; rfl
    | exc msg => right; rfl
    | ok urls => left; rfl

/-- A concrete environment for witnesses: the QR detector finds no code,
the scraper subprocess writes an empty JSON object, Gemini is unavailable. -/
def witnessAgentEnv : AgentEnv :=
  { qrDecode := fun _ => QrDecodeOutcome.decoded Option.none,
    extractor := { scriptFound := true, envEmail := Option.none,
                   envPassword := Option.none,
                   subproc := SubprocOutcome.ok [] },
    nl := { nlOutcome := fun _ => NlOutcome.excFallback,
            fallbackComp := fun _ => Option.none,
            fallbackLoc := fun _ => Option.none } }

/-- A concrete empty tool input for witnesses. -/
def witnessInput : BuildInput :=
  { image_bytes := Option.none, mime_type := Option.none,
    linkedin_url := Option.none, preferences := Option.none,
    email := Option.none, password := Option.none }

/-- Witness for the C7 theorem: `"!!"` is not valid base64 and
`parse_qr_b64` reports it as a `"status": "error"` dictionary. -/
theorem tool_call_totality_witness :
    parse_qr_b64 witnessAgentEnv "!!" = [("status", PyVal.str "error"),
      ("message", PyVal.str "Invalid base64: invalid data")] :=
  (tool_call_totality witnessAgentEnv "!!" witnessInput
      SearchOutcome.importError "q" 5).2.1 rfl

/-! ## C8 — `build_profile` resolution order -/

/-- Counterexample to C8 as stated: `build_profile` consults the QR image
only when `image_bytes` is truthy.  With `image_bytes` present but empty
(`b""` is falsy in Python) and a QR oracle that finds no code, the QR step
would not succeed, yet `build_profile` falls through to the generic
fallback instead of returning an error dictionary. -/
theorem build_profile_empty_image_counterexample :
    build_profile witnessAgentEnv
      { image_bytes := some [], mime_type := Option.none,
        linkedin_url := Option.none, preferences := Option.none,
        email := Option.none, password := Option.none }
      = generic_profile
    ∧ hasKey generic_profile "error" = false
    ∧ dgetEqStr (qr_to_vcard_or_url (witnessAgentEnv.qrDecode []))
        "status" "success" = false :=
  ⟨rfl, rfl, rfl⟩

theorem build_profile_qr_fail (env : AgentEnv) (bytes : List Nat)
    (mt lu pr em pw : Option String) (hbne : bytes ≠ [])
    (hq : dgetEqStr (qr_to_vcard_or_url (env.qrDecode bytes))
        "status" "success" = false) :
    build_profile env ⟨some bytes, mt, lu, pr, em, pw⟩ =
      [("error", (dget (qr_to_vcard_or_url (env.qrDecode bytes))
          "message").getD (PyVal.str "Invalid QR code"))] := by
  unfold build_profile
  dsimp only
  rw [if_neg (by simpa using hbne), if_neg (by simp [hq])]

/-- Claim C8, amended — `build_profile` resolves its inputs in the fixed
priority order QR image, then LinkedIn URL, then natural-language
preferences, then generic fallback, each consulted with Python truthiness
(present **and non-empty**); when `image_bytes` is non-empty but the QR
step does not yield `"status": "success"`, it returns the error dictionary
immediately, ignoring any `linkedin_url` or `preferences` in the input. -/
theorem build_profile_priority (env : AgentEnv) (inp : BuildInput) :
    (∀ bytes, inp.image_bytes = some bytes → bytes ≠ [] →
      ((dgetEqStr (qr_to_vcard_or_url (env.qrDecode bytes))
          "status" "success" = false →
         build_profile env inp =
           [("error", (dget (qr_to_vcard_or_url (env.qrDecode bytes))
               "message").getD (PyVal.str "Invalid QR code"))]
         ∧ ∀ url2 prefs2,
             build_profile env
               { inp with linkedin_url := url2, preferences := prefs2 }
               = build_profile env inp)
       ∧ (∀ u, qr_to_vcard_or_url (env.qrDecode bytes)
            = [("status", PyVal.str "success"),
               ("linkedin_url", PyVal.str u)] →
           build_profile env inp
             = linkedin_profile_extractor env.extractor u
                 inp.email inp.password)))
    ∧ ((inp.image_bytes = Option.none ∨ inp.image_bytes = some []) →
        (∀ u, inp.linkedin_url = some u → u ≠ "" →
          build_profile env inp
            = linkedin_profile_extractor env.extractor u
                inp.email inp.password)
        ∧ ((inp.linkedin_url = Option.none ∨ inp.linkedin_url = some "") →
            (∀ p, inp.preferences = some p → p ≠ "" →
              build_profile env inp = nl_to_json_extractor env.nl p)
            ∧ ((inp.preferences = Option.none ∨ inp.preferences = some "") →
                build_profile env inp = generic_profile))) := by
  obtain ⟨ib, mt, lu, pr, em, pw⟩ := inp
  constructor
  · rintro bytes hib hbne
    simp only at hib
    subst hib
    constructor
    · intro hq
      refine ⟨build_profile_qr_fail env bytes mt lu pr em pw hbne hq, ?_⟩
      intro url2 prefs2
      show build_profile env ⟨some bytes, mt, url2, prefs2, em, pw⟩
        = build_profile env ⟨some bytes, mt, lu, pr, em, pw⟩
      rw [build_profile_qr_fail env bytes mt url2 prefs2 em pw hbne hq,
        build_profile_qr_fail env bytes mt lu pr em pw hbne hq]
    · intro u hqu
      have hchar := (qr_success_char (env.qrDecode bytes) u).mp hqu
      obtain ⟨s, hs, hueq, hm⟩ := hchar
      have hune : u ≠ "" := by
        intro he
        rw [he] at hueq
        rw [← hueq] at hm
        exact absurd hm (by decide)
      unfold build_profile
      dsimp only
      rw [if_neg (by simpa using hbne), hqu]
      have hcond : dgetEqStr [("status", PyVal.str "success"),
          ("linkedin_url", PyVal.str u)] "status" "success" = true := rfl
      rw [if_pos hcond]
      show buildFromUrlOrPrefs env ⟨some bytes, mt, some u, pr, em, pw⟩ = _
      unfold buildFromUrlOrPrefs
      dsimp only
      rw [if_pos (bne_iff_ne.mpr hune)]
  · rintro hib0
    have hred : build_profile env ⟨ib, mt, lu, pr, em, pw⟩
        = buildFromUrlOrPrefs env ⟨ib, mt, lu, pr, em, pw⟩ := by
      rcases hib0 with h | h <;> simp only at h <;> subst h <;> rfl
    refine ⟨?_, ?_⟩
    · intro u hlu hune
      simp only at hlu
      subst hlu
      rw [hred]
      unfold buildFromUrlOrPrefs
      dsimp only
      rw [if_pos (bne_iff_ne.mpr hune)]
    · intro hlu0
      refine ⟨?_, ?_⟩
      · intro p hpr hpne
        simp only at hpr
        subst hpr
        rw [hred]
        rcases hlu0 with h | h <;> simp only at h <;> subst h <;>
          unfold buildFromUrlOrPrefs <;> dsimp only
        · rw [if_pos (bne_iff_ne.mpr hpne)]
        · rw [if_neg (by decide), if_pos (bne_iff_ne.mpr hpne)]
      · intro hpr0
        rw [hred]
        rcases hlu0 with h | h <;> rcases hpr0 with h2 | h2 <;>
          simp only at h h2 <;> subst h <;> subst h2 <;> rfl

/-- Witness for the C8 theorem: with a non-empty image whose QR decodes to
nothing, `build_profile` returns the QR error dictionary even when a
LinkedIn URL is also present. -/
theorem build_profile_priority_witness :
    build_profile witnessAgentEnv
      { image_bytes := some [1], mime_type := Option.none,
        linkedin_url := some "https://www.linkedin.com/in/slug",
        preferences := Option.none,
        email := Option.none, password := Option.none }
      = [("error", PyVal.str "No QR code found in image.")] :=
  (((build_profile_priority witnessAgentEnv
      { image_bytes := some [1], mime_type := Option.none,
        linkedin_url := some "https://www.linkedin.com/in/slug",
        preferences := Option.none,
        email := Option.none, password := Option.none }).1
      [1] rfl (by decide)).1 rfl).1

end MimicIn
